import Mathlib

/-!
Shallow embedding of the corepc response-conversion layer: per-version wire
structures, canonical model structures, and the fallible conversion functions
between them, together with the error taxonomy types and their Display/source
behaviour. Definitions are transcribed from `types/src/v18/blockchain/into.rs`,
`types/src/v21/wallet/error.rs`, `types/src/v21/raw_transactions/error.rs`,
`types/src/v24/blockchain/error.rs` and `types/src/v26/wallet/error.rs`;
declarations whose Rust source is outside those files are modelled from the
spec and say so in their doc comments.
-/

namespace Corepc

/-! ### Hex parsing of fixed-length identifiers (Txid / Wtxid)

The Rust code parses 64-character hex strings into 32-byte identifiers via
the `hex` crate used by rust-bitcoin.  A hex digit is `0-9`, `a-f` or `A-F`;
an array parse first checks the length, then decodes byte pairs, and the
byte order of the resulting array is reversed relative to the string. -/

/-- Value of a single hex digit character, accepting both lower and upper
case, exactly as the hex decoder used by the Rust `parse::<Txid>()` calls. -/
def hexDigitVal (c : Char) : Option Nat :=
  let n := c.toNat
  if 48 ≤ n ∧ n ≤ 57 then some (n - 48)
  else if 97 ≤ n ∧ n ≤ 102 then some (n - 87)
  else if 65 ≤ n ∧ n ≤ 70 then some (n - 55)
  else none

/-- Error returned by the fixed-length hex identifier parse
(`hex::HexToArrayError` in the Rust sources). -/
inductive HexToArrayError where
  /-- A character that is not a hex digit, with its position. -/
  | invalidChar (c : Char) (pos : Nat) : HexToArrayError
  /-- The string length differs from the expected number of hex digits. -/
  | invalidLength (got expected : Nat) : HexToArrayError
  /-- Odd number of hex digits (unreachable after the length check). -/
  | oddLength : HexToArrayError
deriving DecidableEq, Repr

/-- Decode a list of hex digit characters two at a time into bytes,
tracking the position for error reporting. -/
def decodeHexPairs : List Char → Nat → Except HexToArrayError (List Nat)
  | [], _ => .ok []
  | [_], _ => .error .oddLength
  | c1 :: c2 :: rest, pos =>
    match hexDigitVal c1 with
    | none => .error (.invalidChar c1 pos)
    | some h1 =>
      match hexDigitVal c2 with
      | none => .error (.invalidChar c2 (pos + 1))
      | some h2 => (decodeHexPairs rest (pos + 2)).map (fun bs => (h1 * 16 + h2) :: bs)

/-- Parse a 64-character hex string into a 32-byte identifier, as
`s.parse::<Txid>()` / `s.parse::<Wtxid>()` do in the Rust sources.  The
resulting byte list is reversed, mirroring the display-backward byte order
of rust-bitcoin identifiers. -/
def parseHash256 (s : String) : Except HexToArrayError (List Nat) :=
  let cs := s.data
  if cs.length = 64 then (decodeHexPairs cs 0).map List.reverse
  else .error (.invalidLength cs.length 64)

/-! ### Numeric-narrowing helper -/

/-- Error carrying the field name and the offending wide value
(`NumericError` in the Rust crate root). Modelled from the spec: the
`NumericError` declaration is outside the provided source files; the spec
says the range error carries the field name and offending value. -/
structure NumericError where
  field : String
  value : Nat
deriving DecidableEq, Repr

/-- Maximum value of the narrow 32-bit target type. -/
def u32Max : Nat := 4294967295

/-- Modelled from the spec: the numeric-narrowing helper `crate::to_u32` is
declared outside the provided source files.  Per the spec it returns the
wide unsigned value narrowed to the fixed 32-bit width, or fails with a
range error carrying the field name and offending value when the value
exceeds the target maximum. -/
def to_u32 (value : Nat) (field : String) : Except NumericError Nat :=
  if value ≤ u32Max then .ok value else .error ⟨field, value⟩

/-! ### Mempool entry fees

`MempoolEntryFees` and its conversion live outside the provided source
files; only the call `self.fees.into_model().map_err(E::Fees)?` appears in
`into.rs`.  Modelled from the spec: monetary amounts are parsed through the
fixed-point amount parser, which rejects out-of-range amounts. -/

/-- Error from the fixed-point monetary amount parser
(`ParseAmountError` in rust-bitcoin).  Modelled from the spec: the cause is
opaque here; only its presence and display text matter. -/
structure ParseAmountError where
  msg : String
deriving DecidableEq, Repr

/-- Upper bound of the fixed-point monetary amount type, in satoshis. -/
def maxMoney : Int := 2100000000000000

/-- Modelled from the spec: the fixed-point amount parser; the wire amount
is taken already scaled to satoshis and the parse fails when it is negative
or above the maximum monetary amount. -/
def parseAmount (sats : Int) : Except ParseAmountError Int :=
  if sats < 0 then .error ⟨"amount out of range"⟩
  else if maxMoney < sats then .error ⟨"amount out of range"⟩
  else .ok sats

/-- Wire mempool-entry fee object.  Modelled from the spec: the wire struct
is declared outside the provided source files; it carries the base,
modified, ancestor and descendant fee amounts. -/
structure MempoolEntryFees where
  base : Int
  modified : Int
  ancestor : Int
  descendant : Int
deriving DecidableEq, Repr

/-- Canonical model of the mempool-entry fees, all amounts fixed-point. -/
structure ModelMempoolEntryFees where
  base : Int
  modified : Int
  ancestor : Int
  descendant : Int
deriving DecidableEq, Repr

/-- Error converting the fees sub-record, one variant per fallible field.
Modelled from the spec: the declaration is outside the provided sources. -/
inductive MempoolEntryFeesError where
  | base (e : ParseAmountError) : MempoolEntryFeesError
  | modified (e : ParseAmountError) : MempoolEntryFeesError
  | ancestor (e : ParseAmountError) : MempoolEntryFeesError
  | descendant (e : ParseAmountError) : MempoolEntryFeesError
deriving DecidableEq, Repr

/-- Modelled from the spec: conversion of the fees sub-record, parsing each
amount in declaration order and failing fast with the matching variant. -/
def MempoolEntryFees.into_model (f : MempoolEntryFees) :
    Except MempoolEntryFeesError ModelMempoolEntryFees := do
  let base ← (parseAmount f.base).mapError MempoolEntryFeesError.base
  let modified ← (parseAmount f.modified).mapError MempoolEntryFeesError.modified
  let ancestor ← (parseAmount f.ancestor).mapError MempoolEntryFeesError.ancestor
  let descendant ← (parseAmount f.descendant).mapError MempoolEntryFeesError.descendant
  return { base := base, modified := modified, ancestor := ancestor, descendant := descendant }

/-! ### The v18 wire mempool entry and its conversion -/

/-- The v18 wire `MempoolEntry`: native numbers for counts and sizes,
strings for identifiers.  The struct declaration is outside the provided
sources; its fields are modelled from the spec scenario and from the field
accesses in `MempoolEntry::into_model` in `v18/blockchain/into.rs`. -/
structure MempoolEntry where
  size : Nat
  time : Nat
  height : Nat
  descendant_count : Nat
  descendant_size : Nat
  ancestor_count : Nat
  ancestor_size : Nat
  wtxid : String
  fees : MempoolEntryFees
  depends : List String
  spent_by : List String
  bip125_replaceable : Bool
deriving DecidableEq, Repr

/-- Canonical model `model::MempoolEntry`: narrowed integers, parsed
identifiers, and tagged-absent (`Option`) fields that this wire version
does not produce. -/
structure ModelMempoolEntry where
  vsize : Option Nat
  size : Option Nat
  weight : Option Nat
  time : Nat
  height : Nat
  descendant_count : Nat
  descendant_size : Nat
  ancestor_count : Nat
  ancestor_size : Nat
  wtxid : List Nat
  fees : ModelMempoolEntryFees
  depends : List (List Nat)
  spent_by : List (List Nat)
  bip125_replaceable : Option Bool
  unbroadcast : Option Bool
deriving DecidableEq, Repr

/-- Error converting a wire `MempoolEntry` into the model type, one variant
per fallible field as used in `v18/blockchain/into.rs` (the enum
declaration itself is outside the provided sources; the `Numeric` variant
comes from the `From<NumericError>` conversion behind the `?` operator). -/
inductive MempoolEntryError where
  | numeric (e : NumericError) : MempoolEntryError
  | wtxid (e : HexToArrayError) : MempoolEntryError
  | fees (e : MempoolEntryFeesError) : MempoolEntryError
  | depends (e : HexToArrayError) : MempoolEntryError
  | spentBy (e : HexToArrayError) : MempoolEntryError
deriving DecidableEq, Repr

/-- Convert a list of txid strings in order, failing fast with the first
parse error, as the Rust
`iter().map(|t| t.parse::<Txid>()).collect::<Result<Vec<_>, _>>()` does. -/
def parseTxids : List String → Except HexToArrayError (List (List Nat))
  | [] => .ok []
  | s :: rest =>
    match parseHash256 s with
    | .error e => .error e
    | .ok t => (parseTxids rest).map (fun ts => t :: ts)

/-- Transcription of `MempoolEntry::into_model` from
`v18/blockchain/into.rs`: narrow each numeric field through `to_u32` in
declaration order, parse `wtxid`, convert `fees`, parse `depends` and
`spent_by`, and assemble the model with `vsize`, `weight` and `unbroadcast`
tagged-absent. -/
def MempoolEntry.into_model (e : MempoolEntry) :
    Except MempoolEntryError ModelMempoolEntry := do
  let size ← (to_u32 e.size "size").mapError MempoolEntryError.numeric
  let time ← (to_u32 e.time "time").mapError MempoolEntryError.numeric
  let height ← (to_u32 e.height "height").mapError MempoolEntryError.numeric
  let descendant_count ←
    (to_u32 e.descendant_count "descendant_count").mapError MempoolEntryError.numeric
  let descendant_size ←
    (to_u32 e.descendant_size "descendant_size").mapError MempoolEntryError.numeric
  let ancestor_count ←
    (to_u32 e.ancestor_count "ancestor_count").mapError MempoolEntryError.numeric
  let ancestor_size ←
    (to_u32 e.ancestor_size "ancestor_size").mapError MempoolEntryError.numeric
  let wtxid ← (parseHash256 e.wtxid).mapError MempoolEntryError.wtxid
  let fees ← e.fees.into_model.mapError MempoolEntryError.fees
  let depends ← (parseTxids e.depends).mapError MempoolEntryError.depends
  let spent_by ← (parseTxids e.spent_by).mapError MempoolEntryError.spentBy
  return { vsize := none
           size := some size
           weight := none
           time := time
           height := height
           descendant_count := descendant_count
           descendant_size := descendant_size
           ancestor_count := ancestor_count
           ancestor_size := ancestor_size
           wtxid := wtxid
           fees := fees
           depends := depends
           spent_by := spent_by
           bip125_replaceable := some e.bip125_replaceable
           unbroadcast := none }

/-! ### List-of-txid wire responses -/

/-- Wire `GetMempoolAncestors`: a vector of txid strings. -/
structure GetMempoolAncestors where
  txids : List String
deriving DecidableEq, Repr

/-- Wire `GetMempoolDescendants`: a vector of txid strings. -/
structure GetMempoolDescendants where
  txids : List String
deriving DecidableEq, Repr

/-- Wire `GetRawMempool`: a vector of txid strings. -/
structure GetRawMempool where
  txids : List String
deriving DecidableEq, Repr

/-- Transcription of `GetMempoolAncestors::into_model`: parse every string
in order, failing fast with the first hex error. -/
def GetMempoolAncestors.into_model (w : GetMempoolAncestors) :
    Except HexToArrayError (List (List Nat)) :=
  parseTxids w.txids

/-- Transcription of `GetMempoolDescendants::into_model`. -/
def GetMempoolDescendants.into_model (w : GetMempoolDescendants) :
    Except HexToArrayError (List (List Nat)) :=
  parseTxids w.txids

/-- Transcription of `GetRawMempool::into_model`. -/
def GetRawMempool.into_model (w : GetRawMempool) :
    Except HexToArrayError (List (List Nat)) :=
  parseTxids w.txids

/-! ### Verbose mempool map conversions

The wire structs wrap a `BTreeMap<String, MempoolEntry>`; the struct
declarations are outside the provided sources but the spec describes them
as key-ordered mappings with unique keys, so they are embedded as
association lists whose keys are strictly ascending where a theorem needs
the iteration order.  The model side wraps a `BTreeMap<Txid, MempoolEntry>`,
embedded as an association list maintained sorted with replacement on
equal keys, matching `BTreeMap::insert`. -/

/-- Strict lexicographic order on byte lists, the comparison `BTreeMap`
uses on parsed 32-byte identifiers. -/
def txidLt : List Nat → List Nat → Bool
  | [], [] => false
  | [], _ :: _ => true
  | _ :: _, [] => false
  | a :: as, b :: bs => if a < b then true else if b < a then false else txidLt as bs

/-- Lookup in the model association map (first matching key). -/
def lookupTxid (k : List Nat) : List (List Nat × ModelMempoolEntry) → Option ModelMempoolEntry
  | [] => none
  | (k1, v) :: rest => if k1 = k then some v else lookupTxid k rest

/-- `BTreeMap::insert` on the model association map: keep the list sorted
by key and replace the value when the key is already present. -/
def insertTxid (k : List Nat) (v : ModelMempoolEntry) :
    List (List Nat × ModelMempoolEntry) → List (List Nat × ModelMempoolEntry)
  | [] => [(k, v)]
  | (k1, v1) :: rest =>
    if txidLt k k1 then (k, v) :: (k1, v1) :: rest
    else if k = k1 then (k, v) :: rest
    else (k1, v1) :: insertTxid k v rest

/-- Error converting a verbose mempool map (`MapMempoolEntryError`): the
variants used in `v18/blockchain/into.rs` (declaration outside the
provided sources). -/
inductive MapMempoolEntryError where
  /-- A map key failed to parse as a txid. -/
  | txid (e : HexToArrayError) : MapMempoolEntryError
  /-- A map value failed its own conversion. -/
  | mempoolEntry (e : MempoolEntryError) : MapMempoolEntryError
deriving DecidableEq, Repr

/-- The loop shared by all three verbose conversions in
`v18/blockchain/into.rs`: for each `(k, v)` in ascending key order, parse
the key (wrapping failure in the `Txid` variant), convert the value
(wrapping failure in the `MempoolEntry` variant), and insert into the
model map. -/
def verboseGo (acc : List (List Nat × ModelMempoolEntry)) :
    List (String × MempoolEntry) →
    Except MapMempoolEntryError (List (List Nat × ModelMempoolEntry))
  | [] => .ok acc
  | (k, v) :: rest =>
    match parseHash256 k with
    | .error e => .error (.txid e)
    | .ok txid =>
      match v.into_model with
      | .error e => .error (.mempoolEntry e)
      | .ok relative => verboseGo (insertTxid txid relative acc) rest

/-- Wire `GetMempoolAncestorsVerbose`: a key-ordered map from txid string
to wire mempool entry. -/
structure GetMempoolAncestorsVerbose where
  entries : List (String × MempoolEntry)
deriving DecidableEq, Repr

/-- Wire `GetMempoolDescendantsVerbose`. -/
structure GetMempoolDescendantsVerbose where
  entries : List (String × MempoolEntry)
deriving DecidableEq, Repr

/-- Wire `GetRawMempoolVerbose`. -/
structure GetRawMempoolVerbose where
  entries : List (String × MempoolEntry)
deriving DecidableEq, Repr

/-- Transcription of `GetMempoolAncestorsVerbose::into_model`. -/
def GetMempoolAncestorsVerbose.into_model (w : GetMempoolAncestorsVerbose) :
    Except MapMempoolEntryError (List (List Nat × ModelMempoolEntry)) :=
  verboseGo [] w.entries

/-- Transcription of `GetMempoolDescendantsVerbose::into_model`. -/
def GetMempoolDescendantsVerbose.into_model (w : GetMempoolDescendantsVerbose) :
    Except MapMempoolEntryError (List (List Nat × ModelMempoolEntry)) :=
  verboseGo [] w.entries

/-- Transcription of `GetRawMempoolVerbose::into_model`. -/
def GetRawMempoolVerbose.into_model (w : GetRawMempoolVerbose) :
    Except MapMempoolEntryError (List (List Nat × ModelMempoolEntry)) :=
  verboseGo [] w.entries

/-! ### Error taxonomy: Display and source

Transcriptions of the error enums in `v21/wallet/error.rs`,
`v21/raw_transactions/error.rs`, `v24/blockchain/error.rs` and
`v26/wallet/error.rs`, with their `Display` implementations as
string-valued functions and their `std::error::Error::source`
implementations as `Option`-valued functions.  Causes living in external
crates are modelled as opaque carriers of their own display text. -/

/-- Modelled from the spec: the `write_err!` macro lives outside the
provided sources; per the spec's formatting convention the message is
followed by the wrapped cause, separated by a colon. -/
def writeErr (msg cause : String) : String := msg ++ ": " ++ cause

/-- Display text of a hex parse error (external crate; the exact wording
is opaque, only its presence matters). -/
def HexToArrayError.display : HexToArrayError → String
  | .invalidChar c pos =>
    "invalid hex character " ++ toString c ++ " at position " ++ toString pos
  | .invalidLength got expected =>
    "invalid hex string length " ++ toString got ++ " expected " ++ toString expected
  | .oddLength => "odd hex string length"

/-- Display text of the numeric range error.  Modelled from the spec: the
declaration is outside the provided sources; it names the field and the
offending value. -/
def NumericError.display (e : NumericError) : String :=
  "unable to convert value " ++ toString e.value ++ " of the " ++ e.field ++ " field"

/-- Display text of an amount parse error (external crate, opaque). -/
def ParseAmountError.display (e : ParseAmountError) : String := e.msg

/-- PSBT parse error from the external crate, opaque carrier of its text. -/
structure PsbtParseError where
  msg : String
deriving DecidableEq, Repr

/-- Display text of a PSBT parse error. -/
def PsbtParseError.display (e : PsbtParseError) : String := e.msg

/-- Consensus-encoding hex decode error from the external crate
(`encode::FromHexError`), opaque carrier of its text. -/
structure EncodeFromHexError where
  msg : String
deriving DecidableEq, Repr

/-- Display text of a consensus-encoding hex decode error. -/
def EncodeFromHexError.display (e : EncodeFromHexError) : String := e.msg

/-- Error converting one element of the `details` field
(`GetTransactionDetailError`, declared outside the provided sources),
opaque carrier of its text. -/
structure GetTransactionDetailError where
  msg : String
deriving DecidableEq, Repr

/-- Display text of a transaction-detail conversion error. -/
def GetTransactionDetailError.display (e : GetTransactionDetailError) : String := e.msg

/-- `PsbtBumpFeeError` from `v21/wallet/error.rs`. -/
inductive PsbtBumpFeeError where
  | psbt (e : PsbtParseError) : PsbtBumpFeeError
  | originalFee (e : ParseAmountError) : PsbtBumpFeeError
  | fee (e : ParseAmountError) : PsbtBumpFeeError
deriving DecidableEq, Repr

/-- Display of `PsbtBumpFeeError`, transcribing its `fmt` match arms. -/
def PsbtBumpFeeError.display : PsbtBumpFeeError → String
  | .psbt e => writeErr "conversion of the `psbt` field failed" e.display
  | .originalFee e => writeErr "conversion of the `original_fee` field failed" e.display
  | .fee e => writeErr "conversion of the `fee` field failed" e.display

/-- `SendError` from `v21/wallet/error.rs`. -/
inductive SendError where
  | txid (e : HexToArrayError) : SendError
  | hex (e : EncodeFromHexError) : SendError
  | psbt (e : PsbtParseError) : SendError
  | numeric (e : NumericError) : SendError
deriving DecidableEq, Repr

/-- Display of `SendError`, transcribing its `fmt` match arms; note the
`Numeric` arm writes just `"numeric"`. -/
def SendError.display : SendError → String
  | .txid e => writeErr "conversion of the `txid` field failed" e.display
  | .hex e => writeErr "conversion of the `hex` field failed" e.display
  | .psbt e => writeErr "conversion of the `psbt` field failed" e.display
  | .numeric e => writeErr "numeric" e.display

/-- `GetTxSpendingPrevoutError` from `v24/blockchain/error.rs`. -/
inductive GetTxSpendingPrevoutError where
  | txid (e : HexToArrayError) : GetTxSpendingPrevoutError
  | spendingTxid (e : HexToArrayError) : GetTxSpendingPrevoutError
deriving DecidableEq, Repr

/-- Display of `GetTxSpendingPrevoutError`; the `Txid` arm names the
`outpoint` field. -/
def GetTxSpendingPrevoutError.display : GetTxSpendingPrevoutError → String
  | .txid e => writeErr "conversion of the `outpoint` field failed" e.display
  | .spendingTxid e => writeErr "conversion of the `spending_txid` field failed" e.display

/-- `MempoolAcceptanceError` from `v21/raw_transactions/error.rs`. -/
inductive MempoolAcceptanceError where
  | numeric (e : NumericError) : MempoolAcceptanceError
  | txid (e : HexToArrayError) : MempoolAcceptanceError
  | base (e : ParseAmountError) : MempoolAcceptanceError
deriving DecidableEq, Repr

/-- Display of `MempoolAcceptanceError`. -/
def MempoolAcceptanceError.display : MempoolAcceptanceError → String
  | .numeric e => writeErr "conversion of a numeric field failed" e.display
  | .txid e => writeErr "conversion of the `txid` field failed" e.display
  | .base e => writeErr "conversion of the `base` fee field failed" e.display

/-- `TestMempoolAcceptError` from `v21/raw_transactions/error.rs`. -/
inductive TestMempoolAcceptError where
  | mempoolAcceptance (e : MempoolAcceptanceError) : TestMempoolAcceptError
deriving DecidableEq, Repr

/-- Display of `TestMempoolAcceptError`. -/
def TestMempoolAcceptError.display : TestMempoolAcceptError → String
  | .mempoolAcceptance e =>
    writeErr "conversion of one of the mempool acceptance results failed" e.display

/-- `LastProcessedBlockError` from `v26/wallet/error.rs`. -/
inductive LastProcessedBlockError where
  | hash (e : HexToArrayError) : LastProcessedBlockError
  | height (e : NumericError) : LastProcessedBlockError
deriving DecidableEq, Repr

/-- Display of `LastProcessedBlockError`. -/
def LastProcessedBlockError.display : LastProcessedBlockError → String
  | .hash e => writeErr "conversion of the `hash` field failed" e.display
  | .height e => writeErr "conversion of the `height` field failed" e.display

/-- `GetBalancesError` from `v26/wallet/error.rs`. -/
inductive GetBalancesError where
  | mine (e : ParseAmountError) : GetBalancesError
  | watchOnly (e : ParseAmountError) : GetBalancesError
  | lastProcessedBlock (e : LastProcessedBlockError) : GetBalancesError
deriving DecidableEq, Repr

/-- Display of `GetBalancesError`. -/
def GetBalancesError.display : GetBalancesError → String
  | .mine e => writeErr "conversion of the `mine` field failed" e.display
  | .watchOnly e => writeErr "conversion of the `watchonly` field failed" e.display
  | .lastProcessedBlock e =>
    writeErr "conversion of the `last_processed_block` field failed" e.display

/-- `GetTransactionError` from `v26/wallet/error.rs`. -/
inductive GetTransactionError where
  | numeric (e : NumericError) : GetTransactionError
  | amount (e : ParseAmountError) : GetTransactionError
  | fee (e : ParseAmountError) : GetTransactionError
  | blockHash (e : HexToArrayError) : GetTransactionError
  | txid (e : HexToArrayError) : GetTransactionError
  | wtxid (e : HexToArrayError) : GetTransactionError
  | walletConflicts (e : HexToArrayError) : GetTransactionError
  | replacedByTxid (e : HexToArrayError) : GetTransactionError
  | replacesTxid (e : HexToArrayError) : GetTransactionError
  | mempoolConflicts (e : HexToArrayError) : GetTransactionError
  | tx (e : EncodeFromHexError) : GetTransactionError
  | details (e : GetTransactionDetailError) : GetTransactionError
  | lastProcessedBlock (e : LastProcessedBlockError) : GetTransactionError
deriving DecidableEq, Repr

/-- Display of `GetTransactionError`; the `Numeric` arm writes just
`"numeric"` and the `Tx` arm names the `hex` field. -/
def GetTransactionError.display : GetTransactionError → String
  | .numeric e => writeErr "numeric" e.display
  | .amount e => writeErr "conversion of the `amount` field failed" e.display
  | .fee e => writeErr "conversion of the `fee` field failed" e.display
  | .blockHash e => writeErr "conversion of the `block_hash` field failed" e.display
  | .txid e => writeErr "conversion of the `txid` field failed" e.display
  | .wtxid e => writeErr "conversion of the `wtxid` field failed" e.display
  | .walletConflicts e => writeErr "conversion of the `wallet_conflicts` field failed" e.display
  | .replacedByTxid e => writeErr "conversion of the `replaced_by_txid` field failed" e.display
  | .replacesTxid e => writeErr "conversion of the `replaces_txid` field failed" e.display
  | .mempoolConflicts e =>
    writeErr "conversion of the `mempool_conflicts` field failed" e.display
  | .tx e => writeErr "conversion of the `hex` field failed" e.display
  | .details e => writeErr "conversion of the `details` field failed" e.display
  | .lastProcessedBlock e =>
    writeErr "conversion of the `last_processed_block` field failed" e.display

/-- `GetWalletInfoError` from `v26/wallet/error.rs`. -/
inductive GetWalletInfoError where
  | numeric (e : NumericError) : GetWalletInfoError
  | balance (e : ParseAmountError) : GetWalletInfoError
  | unconfirmedBalance (e : ParseAmountError) : GetWalletInfoError
  | immatureBalance (e : ParseAmountError) : GetWalletInfoError
  | payTxFee (e : ParseAmountError) : GetWalletInfoError
  | hdSeedId (e : HexToArrayError) : GetWalletInfoError
  | lastProcessedBlock (e : LastProcessedBlockError) : GetWalletInfoError
deriving DecidableEq, Repr

/-- Display of `GetWalletInfoError`; the `Numeric` arm writes just
`"numeric"`. -/
def GetWalletInfoError.display : GetWalletInfoError → String
  | .numeric e => writeErr "numeric" e.display
  | .balance e => writeErr "conversion of the `balance` field failed" e.display
  | .unconfirmedBalance e =>
    writeErr "conversion of the `unconfirmed_balance` field failed" e.display
  | .immatureBalance e =>
    writeErr "conversion of the `immature_balance` field failed" e.display
  | .payTxFee e => writeErr "conversion of the `pay_tx_fee` field failed" e.display
  | .hdSeedId e => writeErr "conversion of the `hd_seed_id` field failed" e.display
  | .lastProcessedBlock e =>
    writeErr "conversion of the `last_processed_block` field failed" e.display

/-- `WalletProcessPsbtError` from `v26/wallet/error.rs`. -/
inductive WalletProcessPsbtError where
  | psbt (e : PsbtParseError) : WalletProcessPsbtError
  | hex (e : EncodeFromHexError) : WalletProcessPsbtError
deriving DecidableEq, Repr

/-- Display of `WalletProcessPsbtError`: plain `write!` calls, not the
shared field-naming convention. -/
def WalletProcessPsbtError.display : WalletProcessPsbtError → String
  | .psbt e => "psbt parse error: " ++ e.display
  | .hex e => "hex decode error: " ++ e.display

/-- The erased `&dyn std::error::Error` a `source` implementation returns:
a sum of every lower-level cause type appearing in the transcribed error
enums. -/
inductive DynError where
  | hexToArray (e : HexToArrayError) : DynError
  | numeric (e : NumericError) : DynError
  | parseAmount (e : ParseAmountError) : DynError
  | psbtParse (e : PsbtParseError) : DynError
  | encodeHex (e : EncodeFromHexError) : DynError
  | transactionDetail (e : GetTransactionDetailError) : DynError
  | lastProcessedBlock (e : LastProcessedBlockError) : DynError
  | mempoolAcceptance (e : MempoolAcceptanceError) : DynError
deriving DecidableEq, Repr

/-- `source` of `PsbtBumpFeeError`, transcribing its match arms. -/
def PsbtBumpFeeError.source : PsbtBumpFeeError → Option DynError
  | .psbt e => some (.psbtParse e)
  | .originalFee e => some (.parseAmount e)
  | .fee e => some (.parseAmount e)

/-- `source` of `SendError`. -/
def SendError.source : SendError → Option DynError
  | .txid e => some (.hexToArray e)
  | .hex e => some (.encodeHex e)
  | .psbt e => some (.psbtParse e)
  | .numeric e => some (.numeric e)

/-- `source` of `GetTxSpendingPrevoutError`. -/
def GetTxSpendingPrevoutError.source : GetTxSpendingPrevoutError → Option DynError
  | .txid e => some (.hexToArray e)
  | .spendingTxid e => some (.hexToArray e)

/-- `source` of `MempoolAcceptanceError`. -/
def MempoolAcceptanceError.source : MempoolAcceptanceError → Option DynError
  | .numeric e => some (.numeric e)
  | .txid e => some (.hexToArray e)
  | .base e => some (.parseAmount e)

/-- `source` of `TestMempoolAcceptError`. -/
def TestMempoolAcceptError.source : TestMempoolAcceptError → Option DynError
  | .mempoolAcceptance e => some (.mempoolAcceptance e)

/-- `source` of `LastProcessedBlockError`. -/
def LastProcessedBlockError.source : LastProcessedBlockError → Option DynError
  | .hash e => some (.hexToArray e)
  | .height e => some (.numeric e)

/-- `source` of `GetBalancesError`. -/
def GetBalancesError.source : GetBalancesError → Option DynError
  | .mine e => some (.parseAmount e)
  | .watchOnly e => some (.parseAmount e)
  | .lastProcessedBlock e => some (.lastProcessedBlock e)

/-- `source` of `GetTransactionError`. -/
def GetTransactionError.source : GetTransactionError → Option DynError
  | .numeric e => some (.numeric e)
  | .amount e => some (.parseAmount e)
  | .fee e => some (.parseAmount e)
  | .blockHash e => some (.hexToArray e)
  | .txid e => some (.hexToArray e)
  | .wtxid e => some (.hexToArray e)
  | .walletConflicts e => some (.hexToArray e)
  | .replacedByTxid e => some (.hexToArray e)
  | .replacesTxid e => some (.hexToArray e)
  | .mempoolConflicts e => some (.hexToArray e)
  | .tx e => some (.encodeHex e)
  | .details e => some (.transactionDetail e)
  | .lastProcessedBlock e => some (.lastProcessedBlock e)

/-- `source` of `GetWalletInfoError`. -/
def GetWalletInfoError.source : GetWalletInfoError → Option DynError
  | .numeric e => some (.numeric e)
  | .balance e => some (.parseAmount e)
  | .unconfirmedBalance e => some (.parseAmount e)
  | .immatureBalance e => some (.parseAmount e)
  | .payTxFee e => some (.parseAmount e)
  | .hdSeedId e => some (.hexToArray e)
  | .lastProcessedBlock e => some (.lastProcessedBlock e)

/-- `source` of `WalletProcessPsbtError`. -/
def WalletProcessPsbtError.source : WalletProcessPsbtError → Option DynError
  | .psbt e => some (.psbtParse e)
  | .hex e => some (.encodeHex e)

/-! ### Small helpers and reduction lemmas -/

/-- The error of a fallible result, if any. -/
def errOf {ε α : Type} : Except ε α → Option ε
  | .error e => some e
  | .ok _ => none

/-- The success value of a fallible result, if any. -/
def okOf {ε α : Type} : Except ε α → Option α
  | .error _ => none
  | .ok a => some a

/-- Validation order of `MempoolEntry::into_model` as read off the claim:
the first failing field among `size`, `time`, `height`,
`descendant_count`, `descendant_size`, `ancestor_count`, `ancestor_size`,
`wtxid`, `fees`, `depends`, `spent_by`, in that order.  This definition
follows the claimed order, to be compared with the transcribed
conversion. -/
def mempoolEntryFirstError (e : MempoolEntry) : Option MempoolEntryError :=
  (errOf ((to_u32 e.size "size").mapError MempoolEntryError.numeric)).orElse fun _ =>
  (errOf ((to_u32 e.time "time").mapError MempoolEntryError.numeric)).orElse fun _ =>
  (errOf ((to_u32 e.height "height").mapError MempoolEntryError.numeric)).orElse fun _ =>
  (errOf ((to_u32 e.descendant_count "descendant_count").mapError
    MempoolEntryError.numeric)).orElse fun _ =>
  (errOf ((to_u32 e.descendant_size "descendant_size").mapError
    MempoolEntryError.numeric)).orElse fun _ =>
  (errOf ((to_u32 e.ancestor_count "ancestor_count").mapError
    MempoolEntryError.numeric)).orElse fun _ =>
  (errOf ((to_u32 e.ancestor_size "ancestor_size").mapError
    MempoolEntryError.numeric)).orElse fun _ =>
  (errOf ((parseHash256 e.wtxid).mapError MempoolEntryError.wtxid)).orElse fun _ =>
  (errOf (e.fees.into_model.mapError MempoolEntryError.fees)).orElse fun _ =>
  (errOf ((parseTxids e.depends).mapError MempoolEntryError.depends)).orElse fun _ =>
  errOf ((parseTxids e.spent_by).mapError MempoolEntryError.spentBy)

/-- Character-wise strict lexicographic order on strings, matching the
byte-wise ordering a `BTreeMap` keyed by ASCII hex strings iterates in. -/
def strLtB : List Char → List Char → Bool
  | [], [] => false
  | [], _ :: _ => true
  | _ :: _, [] => false
  | a :: as, b :: bs => if a < b then true else if b < a then false else strLtB as bs

/-- Strict order on wire map keys. -/
def strLt (a b : String) : Bool := strLtB a.data b.data

instance {ε α : Type} [DecidableEq ε] [DecidableEq α] : DecidableEq (Except ε α) := fun x y =>
  match x, y with
  | .ok a, .ok b =>
    if h : a = b then isTrue (by rw [h]) else isFalse (by intro hh; cases hh; exact h rfl)
  | .ok _, .error _ => isFalse (by intro hh; cases hh)
  | .error _, .ok _ => isFalse (by intro hh; cases hh)
  | .error e, .error f =>
    if h : e = f then isTrue (by rw [h]) else isFalse (by intro hh; cases hh; exact h rfl)

/-! ### Concrete wire values used in witnesses and counterexamples -/

/-- A fully valid wire mempool entry, the spec scenario record: size 250,
time 1700000000, height 800000, all counts and relative sizes small, a
64-hex-character wtxid, valid fees, empty dependency lists. -/
def entryOk : MempoolEntry where
  size := 250
  time := 1700000000
  height := 800000
  descendant_count := 1
  descendant_size := 250
  ancestor_count := 1
  ancestor_size := 250
  wtxid := String.mk (List.replicate 64 '0')
  fees := ⟨100, 100, 100, 100⟩
  depends := []
  spent_by := []
  bip125_replaceable := true

/-- The spec scenario record with `wtxid = "not-hex"`. -/
def entryBadWtxid : MempoolEntry := { entryOk with wtxid := "not-hex" }

/-- The spec scenario record with a negative base fee, so the nested fees
conversion fails. -/
def entryBadFees : MempoolEntry := { entryOk with fees := ⟨-1, 100, 100, 100⟩ }

/-- An upper-case 64-character hex key. -/
def keyUpper : String := String.mk (List.replicate 64 'A')

/-- The same key in lower case: a distinct string parsing to the same
identifier. -/
def keyLower : String := String.mk (List.replicate 64 'a')

/-- A wire verbose mempool map whose two distinct string keys parse to the
same identifier (hex parsing is case-insensitive). -/
def wireMixedCase : GetRawMempoolVerbose := ⟨[(keyUpper, entryOk), (keyLower, entryOk)]⟩

/-- The model value `entryOk` converts to. -/
def modelEntryOk : ModelMempoolEntry where
  vsize := none
  size := some 250
  weight := none
  time := 1700000000
  height := 800000
  descendant_count := 1
  descendant_size := 250
  ancestor_count := 1
  ancestor_size := 250
  wtxid := List.replicate 32 0
  fees := ⟨100, 100, 100, 100⟩
  depends := []
  spent_by := []
  bip125_replaceable := some true
  unbroadcast := none

theorem errOf_ok {ε α : Type} (a : α) : errOf (ε := ε) (.ok a) = none := rfl

theorem errOf_error {ε α : Type} (e : ε) : errOf (α := α) (.error e) = some e := rfl

theorem okOf_ok {ε α : Type} (a : α) : okOf (ε := ε) (.ok a) = some a := rfl

theorem okOf_error {ε α : Type} (e : ε) : okOf (α := α) (.error e) = none := rfl

theorem exceptMapError_ok {ε ε2 α : Type} (f : ε → ε2) (a : α) :
    Except.mapError f (.ok a) = .ok a := rfl

theorem exceptMapError_error {ε ε2 α : Type} (f : ε → ε2) (e : ε) :
    Except.mapError f (.error e) = (.error (f e) : Except ε2 α) := rfl

theorem exceptBind_ok {ε α β : Type} (a : α) (f : α → Except ε β) :
    Except.bind (.ok a) f = f a := rfl

theorem exceptBind_error {ε α β : Type} (e : ε) (f : α → Except ε β) :
    Except.bind (.error e) f = .error e := rfl

theorem optionOrElse_some {α : Type} (a : α) (f : Unit → Option α) :
    Option.orElse (some a) f = some a := rfl

theorem optionOrElse_none {α : Type} (f : Unit → Option α) :
    Option.orElse none f = f () := rfl

/-! ### Association-map lemmas for the model side -/

theorem lookupTxid_insertTxid (t t1 : List Nat) (v : ModelMempoolEntry)
    (acc : List (List Nat × ModelMempoolEntry)) :
    lookupTxid t1 (insertTxid t v acc) =
      if t1 = t then some v else lookupTxid t1 acc := by
  induction acc with
  | nil =>
    simp only [insertTxid, lookupTxid]
    by_cases h : t1 = t
    · simp [h]
    · have h2 : ¬ t = t1 := fun hh => h hh.symm
      simp [h, h2]
  | cons hd tl ih =>
    obtain ⟨k1, v1⟩ := hd
    simp only [insertTxid]
    by_cases hlt : txidLt t k1
    · simp only [if_pos hlt, lookupTxid]
      by_cases h : t1 = t
      · simp [h]
      · have h2 : ¬ t = t1 := fun hh => h hh.symm
        simp [h, h2]
    · by_cases heq : t = k1
      · simp only [if_neg hlt, if_pos heq, lookupTxid]
        by_cases h : t1 = t
        · simp [h, heq]
        · have h2 : ¬ t = t1 := fun hh => h hh.symm
          have hk : ¬ k1 = t1 := fun hh => h (heq ▸ hh).symm
          have hk2 : ¬ t1 = k1 := fun hh => hk hh.symm
          simp [h, h2, hk, hk2, heq]
      · simp only [if_neg hlt, if_neg heq, lookupTxid, ih]
        by_cases hk : k1 = t1
        · have : ¬ t1 = t := fun h2 => heq (h2 ▸ hk).symm
          simp [hk, this]
        · simp [hk]

theorem length_insertTxid_of_not_mem (t : List Nat) (v : ModelMempoolEntry)
    (acc : List (List Nat × ModelMempoolEntry)) (h : lookupTxid t acc = none) :
    (insertTxid t v acc).length = acc.length + 1 := by
  induction acc with
  | nil => rfl
  | cons hd tl ih =>
    obtain ⟨k1, v1⟩ := hd
    simp only [lookupTxid] at h
    by_cases hk : k1 = t
    · simp [hk] at h
    · simp only [if_neg hk] at h
      simp only [insertTxid]
      by_cases hlt : txidLt t k1
      · simp [hlt]
      · by_cases heq : t = k1
        · exact absurd heq.symm hk
        · simp [hlt, heq, List.length_cons, ih h]

/-! ### Lemmas about the in-order list conversion -/

theorem parseTxids_cons_error (s : String) (rest : List String) (e : HexToArrayError)
    (h : parseHash256 s = .error e) : parseTxids (s :: rest) = .error e := by
  simp [parseTxids, h]

theorem parseTxids_ok_spec (l : List String) :
    ∀ ts, parseTxids l = .ok ts →
      ts.length = l.length ∧
      ∀ i : Nat, ts.get? i = (l.get? i).bind fun s => okOf (parseHash256 s) := by
  induction l with
  | nil =>
    intro ts h
    simp only [parseTxids] at h
    cases h
    exact ⟨rfl, fun i => by cases i <;> rfl⟩
  | cons s rest ih =>
    intro ts h
    simp only [parseTxids] at h
    cases hp : parseHash256 s with
    | error e => rw [hp] at h; cases h
    | ok t =>
      rw [hp] at h
      cases hr : parseTxids rest with
      | error e => rw [hr] at h; cases h
      | ok ts2 =>
        rw [hr] at h
        simp only [Except.map] at h
        cases h
        obtain ⟨hlen, hget⟩ := ih ts2 hr
        refine ⟨by simp [hlen], fun i => ?_⟩
        cases i with
        | zero => simp [hp, okOf]
        | succ j => simpa using hget j

/-! ### Lemmas about the shared verbose-map loop -/

theorem verboseGo_ok_spec (l : List (String × MempoolEntry)) :
    ∀ acc : List (List Nat × ModelMempoolEntry),
    (∀ k v, (k, v) ∈ l → (∃ t, parseHash256 k = .ok t) ∧ ∃ m, v.into_model = .ok m) →
    List.Pairwise (fun a b => ∀ t, parseHash256 a.1 = .ok t → ¬ parseHash256 b.1 = .ok t) l →
    (∀ k v t, (k, v) ∈ l → parseHash256 k = .ok t → lookupTxid t acc = none) →
    ∃ m, verboseGo acc l = .ok m ∧ m.length = acc.length + l.length ∧
      (∀ t, (∀ k v, (k, v) ∈ l → ¬ parseHash256 k = .ok t) →
        lookupTxid t m = lookupTxid t acc) ∧
      (∀ k v t, (k, v) ∈ l → parseHash256 k = .ok t →
        ∃ mv, v.into_model = .ok mv ∧ lookupTxid t m = some mv) ∧
      (∀ t, lookupTxid t m ≠ none →
        lookupTxid t acc ≠ none ∨ ∃ k v, (k, v) ∈ l ∧ parseHash256 k = .ok t) := by
  induction l with
  | nil =>
    intro acc _ _ _
    exact ⟨acc, rfl, rfl, fun t _ => rfl, fun k v t h => absurd h (List.not_mem_nil _),
      fun t h => Or.inl h⟩
  | cons hd tl ih =>
    intro acc hok hpair hfresh
    obtain ⟨k, v⟩ := hd
    obtain ⟨⟨t, ht⟩, ⟨mv, hmv⟩⟩ := hok k v (List.mem_cons_self _ _)
    have hpairhd := (List.pairwise_cons.mp hpair).1
    have hpairtl := (List.pairwise_cons.mp hpair).2
    have hgo : verboseGo acc ((k, v) :: tl) = verboseGo (insertTxid t mv acc) tl := by
      simp [verboseGo, ht, hmv]
    have hfresh2 : ∀ k2 v2 t2, (k2, v2) ∈ tl → parseHash256 k2 = .ok t2 →
        lookupTxid t2 (insertTxid t mv acc) = none := by
      intro k2 v2 t2 hmem hp2
      rw [lookupTxid_insertTxid]
      have hne : ¬ t2 = t := by
        intro hteq
        exact hpairhd (k2, v2) hmem t ht (hteq ▸ hp2)
      rw [if_neg hne]
      exact hfresh k2 v2 t2 (List.mem_cons_of_mem _ hmem) hp2
    obtain ⟨m, hm, hlen, hpres, hbind, hsub⟩ :=
      ih (insertTxid t mv acc)
        (fun k2 v2 hmem => hok k2 v2 (List.mem_cons_of_mem _ hmem)) hpairtl hfresh2
    have hacc : lookupTxid t acc = none := hfresh k v t (List.mem_cons_self _ _) ht
    refine ⟨m, by rw [hgo]; exact hm, ?_, ?_, ?_, ?_⟩
    · rw [hlen, length_insertTxid_of_not_mem t mv acc hacc]
      simp only [List.length_cons]
      omega
    · intro t2 hnone
      have hne : ¬ t2 = t := by
        intro hteq
        exact hnone k v (List.mem_cons_self _ _) (hteq ▸ ht)
      rw [hpres t2 (fun k2 v2 hmem => hnone k2 v2 (List.mem_cons_of_mem _ hmem)),
        lookupTxid_insertTxid, if_neg hne]
    · intro k2 v2 t2 hmem hp2
      rcases List.mem_cons.mp hmem with hhd | htl
      · cases hhd
        have hp2' : t2 = t := by rw [hp2] at ht; cases ht; rfl
        refine ⟨mv, hmv, ?_⟩
        rw [hpres t2 (fun k3 v3 hmem3 => hpairhd (k3, v3) hmem3 t2 (hp2' ▸ ht)),
          lookupTxid_insertTxid, if_pos hp2']
      · exact hbind k2 v2 t2 htl hp2
    · intro t2 hne
      rcases hsub t2 hne with hins | ⟨k2, v2, hmem, hp2⟩
      · rw [lookupTxid_insertTxid] at hins
        by_cases hteq : t2 = t
        · exact Or.inr ⟨k, v, List.mem_cons_self _ _, hteq ▸ ht⟩
        · rw [if_neg hteq] at hins
          exact Or.inl hins
      · exact Or.inr ⟨k2, v2, List.mem_cons_of_mem _ hmem, hp2⟩

theorem verboseGo_error_at (l : List (String × MempoolEntry)) :
    ∀ (acc : List (List Nat × ModelMempoolEntry)) (k : String) (v : MempoolEntry),
    List.Pairwise (fun a b => strLt a.1 b.1 = true) l → (k, v) ∈ l →
    (∀ k2 v2, (k2, v2) ∈ l → strLt k2 k = true →
      (∃ t, parseHash256 k2 = .ok t) ∧ ∃ m, v2.into_model = .ok m) →
    (∀ e, parseHash256 k = .error e → verboseGo acc l = .error (.txid e)) ∧
    (∀ t e, parseHash256 k = .ok t → v.into_model = .error e →
      verboseGo acc l = .error (.mempoolEntry e)) := by
  induction l with
  | nil =>
    intro acc k v _ hmem _
    exact absurd hmem (List.not_mem_nil _)
  | cons hd tl ih =>
    intro acc k v hpair hmem hbefore
    obtain ⟨k0, v0⟩ := hd
    have hpairhd := (List.pairwise_cons.mp hpair).1
    have hpairtl := (List.pairwise_cons.mp hpair).2
    by_cases hhd : (k0, v0) = (k, v)
    · obtain ⟨hk0, hv0⟩ := Prod.mk.injEq .. ▸ hhd
      subst hk0; subst hv0
      constructor
      · intro e he; simp [verboseGo, he]
      · intro t e ht he; simp [verboseGo, ht, he]
    · have htl : (k, v) ∈ tl := by
        rcases List.mem_cons.mp hmem with h | h
        · exact absurd h.symm hhd
        · exact h
      have hk0lt : strLt k0 k = true := hpairhd (k, v) htl
      obtain ⟨⟨t0, ht0⟩, ⟨m0, hm0⟩⟩ :=
        hbefore k0 v0 (List.mem_cons_self _ _) hk0lt
      have hstep : ∀ acc2, verboseGo acc2 ((k0, v0) :: tl) =
          verboseGo (insertTxid t0 m0 acc2) tl := by
        intro acc2; simp [verboseGo, ht0, hm0]
      have := ih (insertTxid t0 m0 acc) k v hpairtl htl
        (fun k2 v2 hmem2 hlt => hbefore k2 v2 (List.mem_cons_of_mem _ hmem2) hlt)
      exact ⟨fun e he => by rw [hstep acc]; exact this.1 e he,
        fun t e ht he => by rw [hstep acc]; exact this.2 t e ht he⟩


theorem to_u32_ok {v : Nat} (s : String) (h : v ≤ u32Max) : to_u32 v s = .ok v := by
  simp [to_u32, h]

theorem to_u32_err {v : Nat} (s : String) (h : u32Max < v) : to_u32 v s = .error ⟨s, v⟩ := by
  simp [to_u32, Nat.not_le.mpr h]

/-! ### Claim theorems -/

/-- C6: the numeric-narrowing helper returns the value itself (never a
truncation) whenever it is at most the 32-bit maximum, and otherwise fails
with a range error carrying the field name and the offending value. -/
theorem to_u32_narrowing_spec (v : Nat) (s : String) :
    (v ≤ u32Max → to_u32 v s = .ok v) ∧
    (u32Max < v → to_u32 v s = .error ⟨s, v⟩) := by
  constructor
  · intro h; simp [to_u32, h]
  · intro h; simp [to_u32, Nat.not_le.mpr h]

/-- Witness for C6 at concrete inputs: 250 narrows to itself, 5000000000
overflows with an error carrying the field name and the value. -/
theorem to_u32_narrowing_spec_witness :
    to_u32 250 "size" = .ok 250 ∧
    to_u32 5000000000 "size" = .error ⟨"size", 5000000000⟩ :=
  ⟨(to_u32_narrowing_spec 250 "size").1 (by decide),
   (to_u32_narrowing_spec 5000000000 "size").2 (by decide)⟩

/-- C2: a v18 wire mempool entry whose fields are all valid converts to
`Ok` with `size` present, the parsed `wtxid`, `bip125_replaceable`
present, and `vsize`, `weight` and `unbroadcast` tagged-absent. -/
theorem mempool_entry_valid_conversion (e : MempoolEntry) (t : List Nat)
    (mf : ModelMempoolEntryFees) (d s : List (List Nat))
    (h1 : e.size ≤ u32Max) (h2 : e.time ≤ u32Max) (h3 : e.height ≤ u32Max)
    (h4 : e.descendant_count ≤ u32Max) (h5 : e.descendant_size ≤ u32Max)
    (h6 : e.ancestor_count ≤ u32Max) (h7 : e.ancestor_size ≤ u32Max)
    (hw : parseHash256 e.wtxid = .ok t)
    (hf : e.fees.into_model = .ok mf)
    (hd : parseTxids e.depends = .ok d)
    (hs : parseTxids e.spent_by = .ok s) :
    e.into_model = .ok
      { vsize := none
        size := some e.size
        weight := none
        time := e.time
        height := e.height
        descendant_count := e.descendant_count
        descendant_size := e.descendant_size
        ancestor_count := e.ancestor_count
        ancestor_size := e.ancestor_size
        wtxid := t
        fees := mf
        depends := d
        spent_by := s
        bip125_replaceable := some e.bip125_replaceable
        unbroadcast := none } := by
  simp [MempoolEntry.into_model, to_u32_ok _ h1, to_u32_ok _ h2, to_u32_ok _ h3,
    to_u32_ok _ h4, to_u32_ok _ h5, to_u32_ok _ h6, to_u32_ok _ h7,
    hw, hf, hd, hs, Except.mapError, Except.instMonad, Except.bind, Except.map,
    Bind.bind, Functor.map, Except.pure, Pure.pure]

/-- Witness for C2: the spec scenario record converts to the expected
model value, with `size = some 250`, the 32-byte parsed wtxid,
`bip125_replaceable = some true`, and `vsize`, `weight`, `unbroadcast`
absent. -/
theorem mempool_entry_valid_conversion_witness :
    entryOk.into_model = .ok
      { vsize := none
        size := some 250
        weight := none
        time := 1700000000
        height := 800000
        descendant_count := 1
        descendant_size := 250
        ancestor_count := 1
        ancestor_size := 250
        wtxid := List.replicate 32 0
        fees := ⟨100, 100, 100, 100⟩
        depends := []
        spent_by := []
        bip125_replaceable := some true
        unbroadcast := none } :=
  mempool_entry_valid_conversion entryOk (List.replicate 32 0) ⟨100, 100, 100, 100⟩ [] []
    (by decide) (by decide) (by decide) (by decide) (by decide) (by decide) (by decide)
    (by decide) (by decide) (by decide) (by decide)

/-- C3: when the wtxid string does not parse and the numeric fields are
valid, `MempoolEntry::into_model` returns exactly the `Wtxid` variant
wrapping the hex parse cause, and no model value. -/
theorem mempool_entry_bad_wtxid (e : MempoolEntry) (herr : HexToArrayError)
    (h1 : e.size ≤ u32Max) (h2 : e.time ≤ u32Max) (h3 : e.height ≤ u32Max)
    (h4 : e.descendant_count ≤ u32Max) (h5 : e.descendant_size ≤ u32Max)
    (h6 : e.ancestor_count ≤ u32Max) (h7 : e.ancestor_size ≤ u32Max)
    (hw : parseHash256 e.wtxid = .error herr) :
    e.into_model = .error (.wtxid herr) := by
  simp [MempoolEntry.into_model, to_u32_ok _ h1, to_u32_ok _ h2, to_u32_ok _ h3,
    to_u32_ok _ h4, to_u32_ok _ h5, to_u32_ok _ h6, to_u32_ok _ h7,
    hw, Except.mapError, Except.instMonad, Except.bind, Except.map,
    Bind.bind, Functor.map, Except.pure, Pure.pure]

/-- Witness for C3: the spec scenario record with `wtxid = "not-hex"`
fails with the `Wtxid` variant wrapping the hex length error. -/
theorem mempool_entry_bad_wtxid_witness :
    entryBadWtxid.into_model = .error (.wtxid (.invalidLength 7 64)) :=
  mempool_entry_bad_wtxid entryBadWtxid (.invalidLength 7 64)
    (by decide) (by decide) (by decide) (by decide) (by decide) (by decide) (by decide)
    (by decide)

/-- C4: list-of-txid conversions fail fast with the error of the first
failing element (in particular element 0 when elements 0 and 2 both
fail), and on success preserve the wire sequence order element-for-
element; `GetMempoolAncestors`, `GetMempoolDescendants` and
`GetRawMempool` all convert through this same in-order routine. -/
theorem txid_list_fail_fast_and_order :
    (∀ (s0 s1 s2 : String) (rest : List String) (e0 e2 : HexToArrayError),
      parseHash256 s0 = .error e0 → parseHash256 s2 = .error e2 →
      parseTxids (s0 :: s1 :: s2 :: rest) = .error e0) ∧
    (∀ w : GetMempoolAncestors, w.into_model = parseTxids w.txids) ∧
    (∀ w : GetMempoolDescendants, w.into_model = parseTxids w.txids) ∧
    (∀ w : GetRawMempool, w.into_model = parseTxids w.txids) ∧
    (∀ (l : List String) (ts : List (List Nat)), parseTxids l = .ok ts →
      ts.length = l.length ∧
      ∀ i : Nat, ts.get? i = (l.get? i).bind fun s => okOf (parseHash256 s)) :=
  ⟨fun s0 _ _ _ e0 _ h0 _ => parseTxids_cons_error s0 _ e0 h0,
   fun _ => rfl, fun _ => rfl, fun _ => rfl, parseTxids_ok_spec⟩

/-- Witness for C4: with elements 0 and 2 both invalid the reported error
is element 0's length error, and a valid singleton converts keeping its
length. -/
theorem txid_list_fail_fast_and_order_witness :
    parseTxids ["zz", "ab", "qq"] = .error (.invalidLength 2 64) ∧
    [List.replicate 32 170].length = [keyLower].length :=
  ⟨txid_list_fail_fast_and_order.1 "zz" "ab" "qq" []
      (.invalidLength 2 64) (.invalidLength 2 64) (by decide) (by decide),
   (txid_list_fail_fast_and_order.2.2.2.2 [keyLower] [List.replicate 32 170]
      (by decide)).1⟩

/-- C5: a failing nested conversion surfaces as the dedicated
nested-conversion variant wrapping the nested error: `MempoolEntry`
wraps a fees failure in `Fees`, and the verbose map conversions wrap an
entry failure in `MempoolEntry`. -/
theorem nested_error_wrapping :
    (∀ (e : MempoolEntry) (fe : MempoolEntryFeesError) (t : List Nat),
      e.size ≤ u32Max → e.time ≤ u32Max → e.height ≤ u32Max →
      e.descendant_count ≤ u32Max → e.descendant_size ≤ u32Max →
      e.ancestor_count ≤ u32Max → e.ancestor_size ≤ u32Max →
      parseHash256 e.wtxid = .ok t → e.fees.into_model = .error fe →
      e.into_model = .error (.fees fe)) ∧
    (∀ (k : String) (v : MempoolEntry) (rest : List (String × MempoolEntry))
      (t : List Nat) (ee : MempoolEntryError),
      parseHash256 k = .ok t → v.into_model = .error ee →
      GetMempoolAncestorsVerbose.into_model ⟨(k, v) :: rest⟩ =
        .error (.mempoolEntry ee)) := by
  constructor
  · intro e fe t h1 h2 h3 h4 h5 h6 h7 hw hf
    simp [MempoolEntry.into_model, to_u32_ok _ h1, to_u32_ok _ h2, to_u32_ok _ h3,
      to_u32_ok _ h4, to_u32_ok _ h5, to_u32_ok _ h6, to_u32_ok _ h7,
      hw, hf, Except.mapError, Except.instMonad, Except.bind, Except.map,
      Bind.bind, Functor.map, Except.pure, Pure.pure]
  · intro k v rest t ee hk hv
    simp [GetMempoolAncestorsVerbose.into_model, verboseGo, hk, hv]

/-- Witness for C5 at concrete inputs: a negative base fee yields the
`Fees`-wrapped error, and a map entry with an invalid wtxid yields the
`MempoolEntry`-wrapped error. -/
theorem nested_error_wrapping_witness :
    entryBadFees.into_model = .error (.fees (.base ⟨"amount out of range"⟩)) ∧
    GetMempoolAncestorsVerbose.into_model ⟨[(keyLower, entryBadWtxid)]⟩ =
      .error (.mempoolEntry (.wtxid (.invalidLength 7 64))) :=
  ⟨nested_error_wrapping.1 entryBadFees (.base ⟨"amount out of range"⟩)
      (List.replicate 32 0) (by decide) (by decide) (by decide) (by decide)
      (by decide) (by decide) (by decide) (by decide) (by decide),
   nested_error_wrapping.2 keyLower entryBadWtxid [] (List.replicate 32 170)
      (.wtxid (.invalidLength 7 64)) (by decide) (by decide)⟩

theorem errOf_mempool_entry_into_model (e : MempoolEntry) :
    errOf e.into_model = mempoolEntryFirstError e := by
  unfold MempoolEntry.into_model mempoolEntryFirstError
  cases h1 : to_u32 e.size "size" <;>
    simp only [errOf, Except.mapError, Except.instMonad, Except.bind, Except.map,
      Bind.bind, Functor.map, Except.pure, Pure.pure, Option.orElse]
  cases h2 : to_u32 e.time "time" <;>
    simp only [errOf, Except.mapError, Except.instMonad, Except.bind, Except.map,
      Bind.bind, Functor.map, Except.pure, Pure.pure, Option.orElse]
  cases h3 : to_u32 e.height "height" <;>
    simp only [errOf, Except.mapError, Except.instMonad, Except.bind, Except.map,
      Bind.bind, Functor.map, Except.pure, Pure.pure, Option.orElse]
  cases h4 : to_u32 e.descendant_count "descendant_count" <;>
    simp only [errOf, Except.mapError, Except.instMonad, Except.bind, Except.map,
      Bind.bind, Functor.map, Except.pure, Pure.pure, Option.orElse]
  cases h5 : to_u32 e.descendant_size "descendant_size" <;>
    simp only [errOf, Except.mapError, Except.instMonad, Except.bind, Except.map,
      Bind.bind, Functor.map, Except.pure, Pure.pure, Option.orElse]
  cases h6 : to_u32 e.ancestor_count "ancestor_count" <;>
    simp only [errOf, Except.mapError, Except.instMonad, Except.bind, Except.map,
      Bind.bind, Functor.map, Except.pure, Pure.pure, Option.orElse]
  cases h7 : to_u32 e.ancestor_size "ancestor_size" <;>
    simp only [errOf, Except.mapError, Except.instMonad, Except.bind, Except.map,
      Bind.bind, Functor.map, Except.pure, Pure.pure, Option.orElse]
  cases h8 : parseHash256 e.wtxid <;>
    simp only [errOf, Except.mapError, Except.instMonad, Except.bind, Except.map,
      Bind.bind, Functor.map, Except.pure, Pure.pure, Option.orElse]
  cases h9 : e.fees.into_model <;>
    simp only [errOf, Except.mapError, Except.instMonad, Except.bind, Except.map,
      Bind.bind, Functor.map, Except.pure, Pure.pure, Option.orElse]
  cases h10 : parseTxids e.depends <;>
    simp only [errOf, Except.mapError, Except.instMonad, Except.bind, Except.map,
      Bind.bind, Functor.map, Except.pure, Pure.pure, Option.orElse]
  cases h11 : parseTxids e.spent_by <;>
    simp only [errOf, Except.mapError, Except.instMonad, Except.bind, Except.map,
      Bind.bind, Functor.map, Except.pure, Pure.pure, Option.orElse]

/-- C9: `MempoolEntry::into_model` validates fields in the fixed order
`size`, `time`, `height`, `descendant_count`, `descendant_size`,
`ancestor_count`, `ancestor_size`, `wtxid`, `fees`, `depends`,
`spent_by`: the error it returns is exactly the error of the earliest
failing field in that order (so an out-of-range numeric field masks an
invalid wtxid). -/
theorem mempool_entry_error_order (e : MempoolEntry) (err : MempoolEntryError) :
    e.into_model = .error err ↔ mempoolEntryFirstError e = some err := by
  rw [← errOf_mempool_entry_into_model]
  cases h : e.into_model with
  | error e2 => simp [errOf]
  | ok m => simp [errOf]


/-- C1 counterexample: a wire verbose map with two distinct valid
64-character hex string keys (all upper case vs all lower case) converts
successfully but the model map has cardinality 1, not 2: hex parsing is
case-insensitive so the two keys are silently merged into one parsed
key. -/
theorem verbose_map_key_collision_cex :
    keyUpper ≠ keyLower ∧
    wireMixedCase.entries.length = 2 ∧
    (okOf wireMixedCase.into_model).map List.length = some 1 := by decide

/-- C1 (amended): when additionally no two distinct wire string keys parse
to the same identifier, converting a verbose mempool map whose keys all
parse and whose entries all convert yields a model map of the same
cardinality whose key set is exactly the set of parsed wire keys, each
parsed key bound to the conversion of the value its wire key mapped to. -/
theorem verbose_map_conversion_preserves_keys (w : GetRawMempoolVerbose)
    (hok : ∀ k v, (k, v) ∈ w.entries →
      (∃ t, parseHash256 k = .ok t) ∧ ∃ m, v.into_model = .ok m)
    (hinj : List.Pairwise
      (fun a b => ∀ t, parseHash256 a.1 = .ok t → ¬ parseHash256 b.1 = .ok t)
      w.entries) :
    ∃ m, w.into_model = .ok m ∧ m.length = w.entries.length ∧
      (∀ k v t, (k, v) ∈ w.entries → parseHash256 k = .ok t →
        ∃ mv, v.into_model = .ok mv ∧ lookupTxid t m = some mv) ∧
      (∀ t, lookupTxid t m ≠ none ↔
        ∃ k v, (k, v) ∈ w.entries ∧ parseHash256 k = .ok t) := by
  obtain ⟨m, hm, hlen, hpres, hbind, hsub⟩ :=
    verboseGo_ok_spec w.entries [] hok hinj (fun k v t _ _ => rfl)
  refine ⟨m, hm, by simpa using hlen, hbind, fun t => ⟨?_, ?_⟩⟩
  · intro hne
    rcases hsub t hne with h | h
    · exact absurd rfl h
    · exact h
  · rintro ⟨k, v, hmem, hp⟩
    obtain ⟨mv, _, hl⟩ := hbind k v t hmem hp
    simp [hl]

/-- Witness for C1 (amended) at a concrete one-entry map. -/
theorem verbose_map_conversion_preserves_keys_witness :
    ∃ m, GetRawMempoolVerbose.into_model ⟨[(keyLower, entryOk)]⟩ = .ok m ∧
      m.length = 1 := by
  obtain ⟨m, hm, hlen, _, _⟩ :=
    verbose_map_conversion_preserves_keys ⟨[(keyLower, entryOk)]⟩
      (by
        intro k v hmem
        rw [List.mem_singleton] at hmem
        cases hmem
        exact ⟨⟨List.replicate 32 170, by decide⟩, ⟨modelEntryOk, by decide⟩⟩)
      (List.pairwise_singleton _ _)
  exact ⟨m, hm, hlen⟩

/-- C10: the verbose map conversion processes entries in ascending order
of the wire string key, parsing each key before converting its value:
when every entry with a smaller key is fully valid, the failing entry
reports its own error, and when its key and value are both invalid the
key's `Txid` error is returned rather than the value's `MempoolEntry`
error. -/
theorem verbose_map_error_order (w : GetRawMempoolVerbose) (k : String)
    (v : MempoolEntry)
    (hsorted : List.Pairwise (fun a b => strLt a.1 b.1 = true) w.entries)
    (hmem : (k, v) ∈ w.entries)
    (hbefore : ∀ k2 v2, (k2, v2) ∈ w.entries → strLt k2 k = true →
      (∃ t, parseHash256 k2 = .ok t) ∧ ∃ m, v2.into_model = .ok m) :
    (∀ e, parseHash256 k = .error e → w.into_model = .error (.txid e)) ∧
    (∀ t e, parseHash256 k = .ok t → v.into_model = .error e →
      w.into_model = .error (.mempoolEntry e)) :=
  verboseGo_error_at w.entries [] k v hsorted hmem hbefore

/-- Witness for C10: in a two-entry map sorted by key whose first entry is
valid, the second entry's invalid wtxid surfaces as the `MempoolEntry`
variant. -/
theorem verbose_map_error_order_witness :
    GetRawMempoolVerbose.into_model ⟨[(keyUpper, entryOk), (keyLower, entryBadWtxid)]⟩ =
      .error (.mempoolEntry (.wtxid (.invalidLength 7 64))) :=
  (verbose_map_error_order ⟨[(keyUpper, entryOk), (keyLower, entryBadWtxid)]⟩
      keyLower entryBadWtxid
      (by
        refine List.Pairwise.cons ?_ (List.pairwise_singleton _ _)
        intro b hb
        rw [List.mem_singleton] at hb
        cases hb
        decide)
      (by
        apply List.mem_cons_of_mem
        exact List.mem_singleton.mpr rfl)
      (by
        intro k2 v2 hmem hlt
        rcases List.mem_cons.mp hmem with h | h
        · cases h
          exact ⟨⟨List.replicate 32 170, by decide⟩, ⟨modelEntryOk, by decide⟩⟩
        · rw [List.mem_singleton] at h
          cases h
          exact absurd hlt (by decide))).2
    (List.replicate 32 170) (.wtxid (.invalidLength 7 64)) (by decide) (by decide)

/-- C7 counterexample: `SendError::Numeric` does not follow the claimed
shared convention: its display text is "numeric: <cause>" and does not
begin with "conversion of the `". -/
theorem display_convention_cex :
    SendError.display (.numeric ⟨"vsize", 5000000000⟩) =
      "numeric: unable to convert value 5000000000 of the vsize field" ∧
    ("conversion of the `").data.isPrefixOf
      (SendError.display (.numeric ⟨"vsize", 5000000000⟩)).data = false := by decide

/-- C7 (amended): every field-named variant of the transcribed error types
displays by the shared convention "conversion of the `<field>` field
failed: <cause>"; the `Numeric` variants of `SendError`,
`GetTransactionError` and `GetWalletInfoError` instead display
"numeric: <cause>", `MempoolAcceptanceError::Numeric` displays
"conversion of a numeric field failed: <cause>",
`MempoolAcceptanceError::Base` names "the `base` fee field",
`TestMempoolAcceptError::MempoolAcceptance` displays "conversion of one of
the mempool acceptance results failed: <cause>", and
`WalletProcessPsbtError` displays "psbt parse error: <cause>" and
"hex decode error: <cause>". -/
theorem display_convention_amended :
    (∀ e : PsbtParseError, PsbtBumpFeeError.display (.psbt e) =
      "conversion of the `psbt` field failed: " ++ e.display) ∧
    (∀ e : ParseAmountError, PsbtBumpFeeError.display (.originalFee e) =
      "conversion of the `original_fee` field failed: " ++ e.display) ∧
    (∀ e : ParseAmountError, PsbtBumpFeeError.display (.fee e) =
      "conversion of the `fee` field failed: " ++ e.display) ∧
    (∀ e : HexToArrayError, SendError.display (.txid e) =
      "conversion of the `txid` field failed: " ++ e.display) ∧
    (∀ e : EncodeFromHexError, SendError.display (.hex e) =
      "conversion of the `hex` field failed: " ++ e.display) ∧
    (∀ e : PsbtParseError, SendError.display (.psbt e) =
      "conversion of the `psbt` field failed: " ++ e.display) ∧
    (∀ e : NumericError, SendError.display (.numeric e) = "numeric: " ++ e.display) ∧
    (∀ e : HexToArrayError, GetTxSpendingPrevoutError.display (.txid e) =
      "conversion of the `outpoint` field failed: " ++ e.display) ∧
    (∀ e : HexToArrayError, GetTxSpendingPrevoutError.display (.spendingTxid e) =
      "conversion of the `spending_txid` field failed: " ++ e.display) ∧
    (∀ e : NumericError, MempoolAcceptanceError.display (.numeric e) =
      "conversion of a numeric field failed: " ++ e.display) ∧
    (∀ e : HexToArrayError, MempoolAcceptanceError.display (.txid e) =
      "conversion of the `txid` field failed: " ++ e.display) ∧
    (∀ e : ParseAmountError, MempoolAcceptanceError.display (.base e) =
      "conversion of the `base` fee field failed: " ++ e.display) ∧
    (∀ e : MempoolAcceptanceError, TestMempoolAcceptError.display (.mempoolAcceptance e) =
      "conversion of one of the mempool acceptance results failed: " ++ e.display) ∧
    (∀ e : HexToArrayError, LastProcessedBlockError.display (.hash e) =
      "conversion of the `hash` field failed: " ++ e.display) ∧
    (∀ e : NumericError, LastProcessedBlockError.display (.height e) =
      "conversion of the `height` field failed: " ++ e.display) ∧
    (∀ e : ParseAmountError, GetBalancesError.display (.mine e) =
      "conversion of the `mine` field failed: " ++ e.display) ∧
    (∀ e : ParseAmountError, GetBalancesError.display (.watchOnly e) =
      "conversion of the `watchonly` field failed: " ++ e.display) ∧
    (∀ e : LastProcessedBlockError, GetBalancesError.display (.lastProcessedBlock e) =
      "conversion of the `last_processed_block` field failed: " ++ e.display) ∧
    (∀ e : NumericError, GetTransactionError.display (.numeric e) =
      "numeric: " ++ e.display) ∧
    (∀ e : ParseAmountError, GetTransactionError.display (.amount e) =
      "conversion of the `amount` field failed: " ++ e.display) ∧
    (∀ e : ParseAmountError, GetTransactionError.display (.fee e) =
      "conversion of the `fee` field failed: " ++ e.display) ∧
    (∀ e : HexToArrayError, GetTransactionError.display (.blockHash e) =
      "conversion of the `block_hash` field failed: " ++ e.display) ∧
    (∀ e : HexToArrayError, GetTransactionError.display (.txid e) =
      "conversion of the `txid` field failed: " ++ e.display) ∧
    (∀ e : HexToArrayError, GetTransactionError.display (.wtxid e) =
      "conversion of the `wtxid` field failed: " ++ e.display) ∧
    (∀ e : HexToArrayError, GetTransactionError.display (.walletConflicts e) =
      "conversion of the `wallet_conflicts` field failed: " ++ e.display) ∧
    (∀ e : HexToArrayError, GetTransactionError.display (.replacedByTxid e) =
      "conversion of the `replaced_by_txid` field failed: " ++ e.display) ∧
    (∀ e : HexToArrayError, GetTransactionError.display (.replacesTxid e) =
      "conversion of the `replaces_txid` field failed: " ++ e.display) ∧
    (∀ e : HexToArrayError, GetTransactionError.display (.mempoolConflicts e) =
      "conversion of the `mempool_conflicts` field failed: " ++ e.display) ∧
    (∀ e : EncodeFromHexError, GetTransactionError.display (.tx e) =
      "conversion of the `hex` field failed: " ++ e.display) ∧
    (∀ e : GetTransactionDetailError, GetTransactionError.display (.details e) =
      "conversion of the `details` field failed: " ++ e.display) ∧
    (∀ e : LastProcessedBlockError, GetTransactionError.display (.lastProcessedBlock e) =
      "conversion of the `last_processed_block` field failed: " ++ e.display) ∧
    (∀ e : NumericError, GetWalletInfoError.display (.numeric e) =
      "numeric: " ++ e.display) ∧
    (∀ e : ParseAmountError, GetWalletInfoError.display (.balance e) =
      "conversion of the `balance` field failed: " ++ e.display) ∧
    (∀ e : ParseAmountError, GetWalletInfoError.display (.unconfirmedBalance e) =
      "conversion of the `unconfirmed_balance` field failed: " ++ e.display) ∧
    (∀ e : ParseAmountError, GetWalletInfoError.display (.immatureBalance e) =
      "conversion of the `immature_balance` field failed: " ++ e.display) ∧
    (∀ e : ParseAmountError, GetWalletInfoError.display (.payTxFee e) =
      "conversion of the `pay_tx_fee` field failed: " ++ e.display) ∧
    (∀ e : HexToArrayError, GetWalletInfoError.display (.hdSeedId e) =
      "conversion of the `hd_seed_id` field failed: " ++ e.display) ∧
    (∀ e : LastProcessedBlockError, GetWalletInfoError.display (.lastProcessedBlock e) =
      "conversion of the `last_processed_block` field failed: " ++ e.display) ∧
    (∀ e : PsbtParseError, WalletProcessPsbtError.display (.psbt e) =
      "psbt parse error: " ++ e.display) ∧
    (∀ e : EncodeFromHexError, WalletProcessPsbtError.display (.hex e) =
      "hex decode error: " ++ e.display) := by
  refine ⟨fun e => ?_, fun e => ?_, fun e => ?_, fun e => ?_, fun e => ?_, fun e => ?_,
    fun e => ?_, fun e => ?_, fun e => ?_, fun e => ?_, fun e => ?_, fun e => ?_,
    fun e => ?_, fun e => ?_, fun e => ?_, fun e => ?_, fun e => ?_, fun e => ?_,
    fun e => ?_, fun e => ?_, fun e => ?_, fun e => ?_, fun e => ?_, fun e => ?_,
    fun e => ?_, fun e => ?_, fun e => ?_, fun e => ?_, fun e => ?_, fun e => ?_,
    fun e => ?_, fun e => ?_, fun e => ?_, fun e => ?_, fun e => ?_, fun e => ?_,
    fun e => ?_, fun e => ?_, fun e => ?_, fun e => ?_⟩ <;> rfl

/-- C8: every variant of every transcribed error type returns `some` of
its wrapped lower-level cause from `source`; no variant returns `none`. -/
theorem source_always_some :
    (∀ e : PsbtBumpFeeError, e.source.isSome = true) ∧
    (∀ e : SendError, e.source.isSome = true) ∧
    (∀ e : GetTxSpendingPrevoutError, e.source.isSome = true) ∧
    (∀ e : TestMempoolAcceptError, e.source.isSome = true) ∧
    (∀ e : MempoolAcceptanceError, e.source.isSome = true) ∧
    (∀ e : GetBalancesError, e.source.isSome = true) ∧
    (∀ e : GetTransactionError, e.source.isSome = true) ∧
    (∀ e : GetWalletInfoError, e.source.isSome = true) ∧
    (∀ e : LastProcessedBlockError, e.source.isSome = true) ∧
    (∀ e : WalletProcessPsbtError, e.source.isSome = true) ∧
    (∀ e, SendError.source (.numeric e) = some (.numeric e)) ∧
    (∀ e, SendError.source (.txid e) = some (.hexToArray e)) ∧
    (∀ e, SendError.source (.hex e) = some (.encodeHex e)) ∧
    (∀ e, SendError.source (.psbt e) = some (.psbtParse e)) ∧
    (∀ e, GetTxSpendingPrevoutError.source (.txid e) = some (.hexToArray e)) ∧
    (∀ e, GetTxSpendingPrevoutError.source (.spendingTxid e) = some (.hexToArray e)) ∧
    (∀ e, TestMempoolAcceptError.source (.mempoolAcceptance e) =
      some (.mempoolAcceptance e)) ∧
    (∀ e, GetTransactionError.source (.details e) = some (.transactionDetail e)) ∧
    (∀ e, GetBalancesError.source (.lastProcessedBlock e) =
      some (.lastProcessedBlock e)) ∧
    (∀ e, WalletProcessPsbtError.source (.psbt e) = some (.psbtParse e)) := by
  refine ⟨fun e => ?_, fun e => ?_, fun e => ?_, fun e => ?_, fun e => ?_, fun e => ?_,
    fun e => ?_, fun e => ?_, fun e => ?_, fun e => ?_, fun e => rfl, fun e => rfl,
    fun e => rfl, fun e => rfl, fun e => rfl, fun e => rfl, fun e => rfl, fun e => rfl,
    fun e => rfl, fun e => rfl⟩ <;> cases e <;> rfl

end Corepc
